import Mathlib

/-!
Shallow embedding of the connection-lifecycle layer of the bt-relay
extension (bt-relay-xcratch.js).  Each definition translates one source
function; theorems below settle the behavioural claims about them.
-/

namespace BtRelay

/-! Executable embeddings of the JavaScript string primitives the source
uses (`String.prototype.trim`, `toUpperCase`, `split(',')`), defined over
the character list so that terms evaluate inside the kernel. -/

/-- JS `s.trim()`: strip leading and trailing whitespace. -/
def trimStr (s : String) : String :=
  String.mk (((s.data.dropWhile Char.isWhitespace).reverse.dropWhile
    Char.isWhitespace).reverse)

/-- JS `s.toUpperCase()` on the ASCII range. -/
def toUpperStr (s : String) : String :=
  String.mk (s.data.map Char.toUpper)

/-- JS `s.split(',')`. -/
def splitCommas (s : String) : List String :=
  (s.data.splitOn ',').map String.mk

/-- Source constant `QUEUE_MAX = 20`: capacity of the disconnected send queue. -/
def QUEUE_MAX : Nat := 20

/-- Source constant `backoffMax = 15000`: ceiling of the reconnect backoff. -/
def backoffMax : Nat := 15000

/-! ## State tracker (`updateStateFromText`) -/

/-- The state-tracker slice of the module-scoped mutable state:
`lastStateText`, `lastStateNum`, `prevStateNum` and the two HAT edge flags. -/
structure TrackerState where
  lastStateText : String
  lastStateNum : Nat
  prevStateNum : Nat
  edgeOn : Bool
  edgeOff : Bool
deriving Repr, DecidableEq

/-- The numeric decoding embedded in `updateStateFromText`:
`'on'/'1' ↦ 1`, `'off'/'0' ↦ 0`, any other token keeps the previous value. -/
def decodeStateNum (v : String) (before : Nat) : Nat :=
  if v = "on" ∨ v = "1" then 1
  else if v = "off" ∨ v = "0" then 0
  else before

/-- Source `updateStateFromText(v)`: stores the text, recomputes the numeric
value, raises `edgeOn` on a 0→1 transition and `edgeOff` on 1→0, then copies
the new value into `prevStateNum`. -/
def updateStateFromText (v : String) (st : TrackerState) : TrackerState :=
  let before := st.lastStateNum
  let newNum := decodeStateNum v before
  { lastStateText := v
    lastStateNum := newNum
    prevStateNum := newNum
    edgeOn := if before = 0 ∧ newNum = 1 then true else st.edgeOn
    edgeOff := if before = 1 ∧ newNum = 0 then true else st.edgeOff }

/-! ## Send queue (`sendAscii`) -/

/-- The queue update performed by `sendAscii` when disconnected with
reconnect intent: evict the oldest entry when at capacity, then push. -/
def enqueueDrop (q : List String) (s : String) : List String :=
  (if QUEUE_MAX ≤ q.length then q.drop 1 else q) ++ [s]

/-- Observable result of one `sendAscii` call. -/
inductive SendResult where
  | wrote (token : String)
  | queued
  | errored (msg : String)
deriving Repr, DecidableEq

/-- Result of `sendAscii` together with the queue afterwards and whether
`scheduleReconnect()` was invoked. -/
structure SendOutcome where
  result : SendResult
  queue : List String
  scheduledReconnect : Bool
deriving Repr, DecidableEq

/-- Source `sendAscii(str)`.  `connected`/`hasRx` mirror the `!connected ||
!rxChar` guard; when that guard fires, the token is queued (with drop-oldest)
under reconnect intent, otherwise the call throws `'未接続です'`; when the
guard passes, the token is written to the transport write channel. -/
def sendAscii (connected hasRx wantReconnect : Bool) (q : List String)
    (str : String) : SendOutcome :=
  if !connected || !hasRx then
    if wantReconnect then
      { result := .queued, queue := enqueueDrop q str, scheduledReconnect := true }
    else
      { result := .errored "未接続です", queue := q, scheduledReconnect := false }
  else
    { result := .wrote str, queue := q, scheduledReconnect := false }

/-! ## Queue drain on connection (`onConnected`) -/

/-- The queue-drain loop inside `onConnected`.  `writeErr i` is the transport
outcome of the `i`-th write attempt (`none` = success, `some m` = the write
threw with message `m`).  Returns the tokens written in order, the queue left
behind, and the error recorded by `setError` (if any): on the first failing
write, the already-shifted token is dropped, the error is recorded and the
loop breaks, leaving the rest queued. -/
def drainQueue (writeErr : Nat → Option String) :
    Nat → List String → List String × List String × Option String
  | _, [] => ([], [], none)
  | i, s :: rest =>
    match writeErr i with
    | some m => ([], rest, some m)
    | none =>
      let r := drainQueue writeErr (i + 1) rest
      (s :: r.1, r.2.1, r.2.2)

/-- The connection-level slice of the module-scoped mutable state touched by
`onConnected`. -/
structure ConnState where
  connected : Bool
  connecting : Bool
  backoffMs : Nat
  lastError : String
  prevConnected : Bool
  edgeConnected : Bool
  sendQueue : List String
deriving Repr, DecidableEq

/-- Source `onConnected()`: marks connected, resets the backoff to 1000 ms,
clears the last error, fires `edgeConnected` on a 0→1 transition of logical
connectedness, then drains the send queue (polling is an external timer and
is not part of the embedded state). -/
def onConnected (writeErr : Nat → Option String) (st : ConnState) : ConnState :=
  let st1 : ConnState :=
    { st with connected := true, connecting := false, backoffMs := 1000, lastError := "" }
  let st2 : ConnState :=
    if !st1.prevConnected then { st1 with edgeConnected := true, prevConnected := true }
    else st1
  let d := drainQueue writeErr 0 st2.sendQueue
  { st2 with
    sendQueue := d.2.1
    lastError := match d.2.2 with | some m => m | none => st2.lastError }

/-! ## Reconnect backoff (`scheduleReconnect` failure path) -/

/-- The backoff update in the reconnect timer's failure handler:
`backoffMs = Math.min(backoffMs * 2, backoffMax)`. -/
def backoffFail (b : Nat) : Nat := min (b * 2) backoffMax

/-! ## `reconnect()` -/

/-- The guards `reconnect()` reads: whether an active device exists
(`device`), whether a `reconnect` call is in flight (`connecting`), and
whether the transport session is already live (`device.gatt.connected`). -/
structure LinkFlags where
  hasDevice : Bool
  connecting : Bool
  gattConnected : Bool
deriving Repr, DecidableEq

/-- Source `reconnect()` up to its transport call: throws
`'以前に接続したデバイスがありません'` with no device; returns immediately
(`false` = no transport connect) when already connecting or already
transport-connected; otherwise sets `connecting` and invokes the transport
connect (`true`). -/
def reconnectEnter (st : LinkFlags) : Except String (LinkFlags × Bool) :=
  if !st.hasDevice then .error "以前に接続したデバイスがありません"
  else if st.connecting || st.gattConnected then .ok (st, false)
  else .ok ({ st with connecting := true }, true)

/-! ## Device registry and `connectById` -/

/-- Source `findById(id)` over the `known` map, embedded as an association
list `id ↦ name` (the `device` handle is opaque and represented by the
stored name). -/
def findById (known : List (String × String)) (id : String) : Option String :=
  List.lookup id known

/-- What a `connectById` call ends up doing. -/
inductive CbOutcome where
  | scanned
  | reconnected (id : String)
  | failed (msg : String)
deriving Repr, DecidableEq

/-- Source `connectById(args)`: trims the id and resolves it via the
registry.  Unknown id → fresh scan-and-connect (`requestAndConnect`); known
id → set it active and `reconnect()`.  A failure of the first attempt is
caught and answered with one more `requestAndConnect`; only that fallback's
failure is re-thrown.  `scanFirst`/`scanFallback` are the transport outcomes
of the two possible `requestAndConnect` call sites, `recon` of `reconnect()`. -/
def connectById (known : List (String × String))
    (scanFirst scanFallback : Except String Unit) (recon : Except String Unit)
    (idArg : String) : CbOutcome :=
  match findById known (trimStr idArg) with
  | none =>
    match scanFirst with
    | .ok _ => .scanned
    | .error _ =>
      match scanFallback with
      | .ok _ => .scanned
      | .error m2 => .failed m2
  | some _ =>
    match recon with
    | .ok _ => .reconnected (trimStr idArg)
    | .error _ =>
      match scanFallback with
      | .ok _ => .scanned
      | .error m2 => .failed m2

/-! ## Bulk dispatch (`connectSendById`, `bulkCsv`) -/

/-- The `switch (action)` in `connectSendById`: `ON ↦ '1'`, `OFF ↦ '0'`,
`TOGGLE ↦ 't'`, `READ` and every other value ↦ `'s'` (via `readState`). -/
def actionToken (action : String) : String :=
  if action = "ON" then "1"
  else if action = "OFF" then "0"
  else if action = "TOGGLE" then "t"
  else "s"

/-- Source `connectSendById(id, action)`: unknown id throws
`'未知のID: ' + id`; otherwise the device is made active, connected if
needed (`devFail id` is the transport outcome for that id: `none` =
connect-and-write succeed) and the action's token is sent. -/
def connectSendById (known : List (String × String))
    (devFail : String → Option String) (id action : String) :
    Except String String :=
  match findById known id with
  | none => .error ("未知のID: " ++ id)
  | some _ =>
    match devFail id with
    | some m => .error m
    | none => .ok (actionToken action)

/-- Observable outcome of a `bulkCsv` call: the `(id, token)` pairs sent, in
order, and the last-error slot (cleared at entry). -/
structure BulkState where
  sent : List (String × String)
  lastError : String
deriving Repr, DecidableEq

/-- One iteration of `bulkCsv`'s per-id loop: a failure is caught and
recorded as `ID <id>: <message>`, overwriting the slot; a success appends
the sent pair. -/
def bulkStep (known : List (String × String)) (devFail : String → Option String)
    (act : String) (st : BulkState) (id : String) : BulkState :=
  match connectSendById known devFail id act with
  | .ok tok => { st with sent := st.sent ++ [(id, tok)] }
  | .error m => { st with lastError := "ID " ++ id ++ ": " ++ m }

/-- The id-list parsing in `bulkCsv`:
`csv.split(',').map(s => s.trim()).filter(Boolean)` applied to the trimmed
CSV string. -/
def parseCsvIds (csv : String) : List String :=
  ((splitCommas (trimStr csv)).map trimStr).filter (fun s => s ≠ "")

/-- Source `bulkCsv(args)`: clears the error slot, defaults a falsy action
to `'ON'`, uppercases it, returns early on an empty CSV, and otherwise runs
the per-id loop sequentially over the parsed ids. -/
def bulkCsv (known : List (String × String)) (devFail : String → Option String)
    (csv act : String) : BulkState :=
  let a := toUpperStr (if act = "" then "ON" else act)
  if trimStr csv = "" then { sent := [], lastError := "" }
  else (parseCsvIds csv).foldl (bulkStep known devFail a) { sent := [], lastError := "" }

/-- The `(id, token)` pair a single `bulkCsv` iteration sends for `id`
(`none` when that id's dispatch fails). -/
def bulkSentPair (known : List (String × String))
    (devFail : String → Option String) (a : String) (id : String) :
    Option (String × String) :=
  match connectSendById known devFail id a with
  | .ok tok => some (id, tok)
  | .error _ => none

/-- The last-error text a single `bulkCsv` iteration records for `id`
(`none` when that id's dispatch succeeds). -/
def bulkFailMsg (known : List (String × String))
    (devFail : String → Option String) (a : String) (id : String) :
    Option String :=
  match connectSendById known devFail id a with
  | .ok _ => none
  | .error m => some ("ID " ++ id ++ ": " ++ m)

/-- Concrete 21-token list used as the C2 witness input. -/
def capList : List String := (List.range 21).map toString

/-! ## Helper lemmas -/

theorem ite_and_eq_or (p q : Prop) [Decidable p] [Decidable q] (b : Bool) :
    (if p ∧ q then true else b) = (b || (decide p && decide q)) := by
  by_cases hp : p <;> by_cases hq : q <;> simp [hp, hq]

theorem decodeStateNum_idem (v : String) (b : Nat) :
    decodeStateNum v (decodeStateNum v b) = decodeStateNum v b := by
  unfold decodeStateNum
  split_ifs <;> rfl

/-- C1: over any sequence of notifications, `updateStateFromText` raises
`edgeOn` exactly when the stored numeric value was 0 and the newly decoded
value is 1 (the flag otherwise keeps its previous value), symmetrically for
`edgeOff` on 1→0; and a repeat of the same notification raises neither flag
again. -/
theorem stateTracker_edges (v : String) (st : TrackerState) :
    ((updateStateFromText v st).edgeOn
      = (st.edgeOn || (decide (st.lastStateNum = 0)
          && decide (decodeStateNum v st.lastStateNum = 1))))
    ∧ ((updateStateFromText v st).edgeOff
      = (st.edgeOff || (decide (st.lastStateNum = 1)
          && decide (decodeStateNum v st.lastStateNum = 0))))
    ∧ (updateStateFromText v (updateStateFromText v st)).edgeOn
        = (updateStateFromText v st).edgeOn
    ∧ (updateStateFromText v (updateStateFromText v st)).edgeOff
        = (updateStateFromText v st).edgeOff := by
  have hidem := decodeStateNum_idem v st.lastStateNum
  refine ⟨?_, ?_, ?_, ?_⟩
  · simp only [updateStateFromText]
    exact ite_and_eq_or _ _ _
  · simp only [updateStateFromText]
    exact ite_and_eq_or _ _ _
  · simp only [updateStateFromText]
    rw [if_neg]
    rintro ⟨h0, h1⟩
    rw [hidem] at h1
    omega
  · simp only [updateStateFromText]
    rw [if_neg]
    rintro ⟨h0, h1⟩
    rw [hidem] at h1
    omega

/-- C3: `sendAscii` is a three-way case split.  Connected (with the write
channel resolved, which connectedness guarantees): the token is written
immediately.  Disconnected with reconnect intent: the token is enqueued with
drop-oldest eviction, `scheduleReconnect()` is triggered, no error.
Disconnected without reconnect intent: the call throws `'未接続です'` and the
queue is untouched. -/
theorem sendAscii_case_split (connected hasRx wantReconnect : Bool)
    (q : List String) (str : String) :
    (connected = true → hasRx = true →
      sendAscii connected hasRx wantReconnect q str
        = { result := .wrote str, queue := q, scheduledReconnect := false })
    ∧ (connected = false → wantReconnect = true →
      sendAscii connected hasRx wantReconnect q str
        = { result := .queued, queue := enqueueDrop q str, scheduledReconnect := true })
    ∧ (connected = false → wantReconnect = false →
      sendAscii connected hasRx wantReconnect q str
        = { result := .errored "未接続です", queue := q, scheduledReconnect := false }) := by
  refine ⟨?_, ?_, ?_⟩ <;> rintro rfl rfl <;> rfl

/-- Witness for C3: the three branches at concrete inputs. -/
theorem sendAscii_case_split_witness :
    (sendAscii true true false ["q0"] "1"
      = { result := .wrote "1", queue := ["q0"], scheduledReconnect := false })
    ∧ (sendAscii false true true ["q0"] "1"
      = { result := .queued, queue := enqueueDrop ["q0"] "1", scheduledReconnect := true })
    ∧ (sendAscii false true false ["q0"] "1"
      = { result := .errored "未接続です", queue := ["q0"], scheduledReconnect := false }) :=
  ⟨(sendAscii_case_split true true false ["q0"] "1").1 rfl rfl,
   (sendAscii_case_split false true true ["q0"] "1").2.1 rfl rfl,
   (sendAscii_case_split false true false ["q0"] "1").2.2 rfl rfl⟩

/-- C5: `reconnect()` with no active device throws
`'以前に接続したデバイスがありません'`; with a live transport session it
returns without a transport connect; and of two successive calls where the
first is still in flight (its `connecting` flag set), only the first invokes
the transport connect. -/
theorem reconnect_idempotent (st : LinkFlags) :
    (st.hasDevice = false →
      reconnectEnter st = .error "以前に接続したデバイスがありません")
    ∧ (st.hasDevice = true → st.gattConnected = true →
      reconnectEnter st = .ok (st, false))
    ∧ (st.hasDevice = true → st.connecting = false → st.gattConnected = false →
      reconnectEnter st = .ok ({ st with connecting := true }, true)
      ∧ reconnectEnter { st with connecting := true }
          = .ok ({ st with connecting := true }, false)) := by
  obtain ⟨hd, hc, hg⟩ := st
  refine ⟨?_, ?_, ?_⟩
  · rintro rfl; rfl
  · rintro rfl rfl
    cases hc <;> rfl
  · rintro rfl rfl rfl
    exact ⟨rfl, rfl⟩

/-- Witness for C5: a device with no call in flight connects once; the
repeated call while in flight performs no transport connect; a call with no
device errors. -/
theorem reconnect_idempotent_witness :
    reconnectEnter ⟨true, false, false⟩ = .ok (⟨true, true, false⟩, true)
    ∧ reconnectEnter ⟨true, true, false⟩ = .ok (⟨true, true, false⟩, false)
    ∧ reconnectEnter ⟨false, false, false⟩
        = .error "以前に接続したデバイスがありません" :=
  ⟨((reconnect_idempotent ⟨true, false, false⟩).2.2 rfl rfl rfl).1,
   ((reconnect_idempotent ⟨true, false, false⟩).2.2 rfl rfl rfl).2,
   (reconnect_idempotent ⟨false, false, false⟩).1 rfl⟩

/-- Field-level characterization of `onConnected`. -/
theorem onConnected_eq (writeErr : Nat → Option String) (st : ConnState) :
    onConnected writeErr st =
      { connected := true
        connecting := false
        backoffMs := 1000
        lastError := ((drainQueue writeErr 0 st.sendQueue).2.2).getD ""
        prevConnected := true
        edgeConnected := st.edgeConnected || !st.prevConnected
        sendQueue := (drainQueue writeErr 0 st.sendQueue).2.1 } := by
  cases hd : (drainQueue writeErr 0 st.sendQueue).2.2 <;>
    cases hp : st.prevConnected <;>
      simp [onConnected, hp, hd]

/-- C6: along a run of consecutive failed reconnect-timer attempts the
backoff doubles each time capped at 15000 ms — one failure step maps `b` to
`min (2·b) 15000`, and after `n` failures from the floor the delay is
`min (1000·2^n) 15000` — while a successful `onConnected` resets it to the
1000 ms floor. -/
theorem backoff_double_capped_reset :
    (∀ b : Nat, backoffFail b = min (2 * b) backoffMax)
    ∧ (∀ n : Nat, backoffFail^[n] 1000 = min (1000 * 2 ^ n) backoffMax)
    ∧ (∀ (writeErr : Nat → Option String) (st : ConnState),
        (onConnected writeErr st).backoffMs = 1000) := by
  refine ⟨fun b => by rw [backoffFail, Nat.mul_comm], ?_, fun w st => by rw [onConnected_eq]⟩
  intro n
  induction n with
  | zero => simp [backoffMax]
  | succ n ih =>
    rw [Function.iterate_succ_apply', ih]
    have hp : 1000 * 2 ^ (n + 1) = 1000 * 2 ^ n * 2 := by ring
    have hB : backoffMax = 15000 := rfl
    rw [hp, backoffFail]
    omega

/-- C9: after `onConnected` the last-error slot no longer depends on
whatever error was recorded before the connection: it is the empty string
unless the queue drain itself failed (in which case it is that drain
failure's message); in particular with nothing queued it is always `""`. -/
theorem onConnected_clears_lastError (writeErr : Nat → Option String)
    (st : ConnState) :
    (onConnected writeErr st).lastError
      = ((drainQueue writeErr 0 st.sendQueue).2.2).getD ""
    ∧ (st.sendQueue = [] → (onConnected writeErr st).lastError = "") := by
  constructor
  · rw [onConnected_eq]
  · intro h
    rw [onConnected_eq, h]
    rfl

/-- Witness for C9: a prior recorded failure is wiped by a successful
connection with an empty queue. -/
theorem onConnected_clears_lastError_witness :
    (ConnState.sendQueue ⟨false, false, 8000, "ID b: 未知のID: b", false, false, []⟩ = [])
    ∧ (onConnected (fun _ => none)
        ⟨false, false, 8000, "ID b: 未知のID: b", false, false, []⟩).lastError = "" :=
  ⟨rfl,
   (onConnected_clears_lastError (fun _ => none)
      ⟨false, false, 8000, "ID b: 未知のID: b", false, false, []⟩).2 rfl⟩

theorem drainQueue_all_ok (writeErr : Nat → Option String) :
    ∀ (k : Nat) (ts : List String),
      (∀ i, i < ts.length → writeErr (k + i) = none) →
      drainQueue writeErr k ts = (ts, [], none) := by
  intro k ts
  induction ts generalizing k with
  | nil => intro _; rfl
  | cons s rest ih =>
    intro h
    have h0 : writeErr k = none := by simpa using h 0 (by simp)
    have hrest : ∀ i, i < rest.length → writeErr (k + 1 + i) = none := by
      intro i hi
      rw [show k + 1 + i = k + (i + 1) by omega]
      exact h (i + 1) (by simpa using hi)
    simp only [drainQueue, h0]
    rw [ih (k + 1) hrest]

theorem drainQueue_first_fail (writeErr : Nat → Option String) :
    ∀ (k j : Nat) (ts : List String) (m : String), j < ts.length →
      (∀ i, i < j → writeErr (k + i) = none) → writeErr (k + j) = some m →
      drainQueue writeErr k ts = (ts.take j, ts.drop (j + 1), some m) := by
  intro k j ts
  induction ts generalizing k j with
  | nil =>
    intro m hj
    simp at hj
  | cons s rest ih =>
    intro m hj hok hfail
    cases j with
    | zero =>
      have h0 : writeErr k = some m := by simpa using hfail
      simp [drainQueue, h0]
    | succ j' =>
      have h0 : writeErr k = none := by simpa using hok 0 (by omega)
      have hok' : ∀ i, i < j' → writeErr (k + 1 + i) = none := by
        intro i hi
        rw [show k + 1 + i = k + (i + 1) by omega]
        exact hok (i + 1) (by omega)
      have hfail' : writeErr (k + 1 + j') = some m := by
        rw [show k + 1 + j' = k + (j' + 1) by omega]
        exact hfail
      simp only [drainQueue, h0]
      rw [ih (k + 1) j' m (by simpa using hj) hok' hfail']
      simp

/-- C4: when `onConnected` fires, the queue drains strictly in FIFO order,
one write at a time; if every write succeeds the whole queue is written and
emptied, and on the first write failure (attempt `j`) exactly the first `j`
tokens were written in order, the failed token is dropped (not retried), the
failure message lands in the last-error slot, and the remaining tokens stay
queued in their original order. -/
theorem onConnected_drain_fifo (writeErr : Nat → Option String) (st : ConnState) :
    ((∀ i, i < st.sendQueue.length → writeErr i = none) →
      drainQueue writeErr 0 st.sendQueue = (st.sendQueue, [], none)
      ∧ (onConnected writeErr st).sendQueue = [])
    ∧ (∀ j m, j < st.sendQueue.length →
        (∀ i, i < j → writeErr i = none) → writeErr j = some m →
        drainQueue writeErr 0 st.sendQueue
          = (st.sendQueue.take j, st.sendQueue.drop (j + 1), some m)
        ∧ (onConnected writeErr st).sendQueue = st.sendQueue.drop (j + 1)
        ∧ (onConnected writeErr st).lastError = m) := by
  constructor
  · intro h
    have hd := drainQueue_all_ok writeErr 0 st.sendQueue (by simpa using h)
    exact ⟨hd, by rw [onConnected_eq, hd]⟩
  · intro j m hj hok hfail
    have hd := drainQueue_first_fail writeErr 0 j st.sendQueue m hj
      (by simpa using hok) (by simpa using hfail)
    exact ⟨hd, by rw [onConnected_eq, hd], by rw [onConnected_eq, hd]; rfl⟩

/-- Witness for C4: queue `["a","b","c"]` with the second write failing —
`"a"` is written, `"b"` dropped, `"c"` left queued, error recorded. -/
theorem onConnected_drain_fifo_witness :
    drainQueue (fun i => if i = 1 then some "boom" else none) 0
        (ConnState.sendQueue ⟨false, true, 4000, "old", false, false, ["a", "b", "c"]⟩)
      = ((["a", "b", "c"] : List String).take 1, (["a", "b", "c"] : List String).drop 2,
         some "boom")
    ∧ (onConnected (fun i => if i = 1 then some "boom" else none)
        ⟨false, true, 4000, "old", false, false, ["a", "b", "c"]⟩).sendQueue
      = (["a", "b", "c"] : List String).drop 2
    ∧ (onConnected (fun i => if i = 1 then some "boom" else none)
        ⟨false, true, 4000, "old", false, false, ["a", "b", "c"]⟩).lastError = "boom" :=
  (onConnected_drain_fifo (fun i => if i = 1 then some "boom" else none)
    ⟨false, true, 4000, "old", false, false, ["a", "b", "c"]⟩).2 1 "boom"
    (by decide) (by decide) (by decide)

theorem enqueueDrop_length_le (q : List String) (s : String)
    (h : q.length ≤ QUEUE_MAX) : (enqueueDrop q s).length ≤ QUEUE_MAX := by
  have hQ : QUEUE_MAX = 20 := rfl
  unfold enqueueDrop
  split <;> simp <;> omega

theorem foldl_enqueueDrop (ts : List String) :
    ∀ q : List String, q.length ≤ QUEUE_MAX →
      ts.foldl enqueueDrop q = (q ++ ts).drop ((q ++ ts).length - QUEUE_MAX) := by
  have hQ : QUEUE_MAX = 20 := rfl
  induction ts with
  | nil =>
    intro q h
    simp [Nat.sub_eq_zero_of_le h]
  | cons s rest ih =>
    intro q h
    rw [List.foldl_cons, ih (enqueueDrop q s) (enqueueDrop_length_le q s h)]
    by_cases hq : QUEUE_MAX ≤ q.length
    · have hq' : q.length = QUEUE_MAX := Nat.le_antisymm h hq
      have hqpos : 1 ≤ q.length := by omega
      have e1 : enqueueDrop q s ++ rest = (q ++ s :: rest).drop 1 := by
        unfold enqueueDrop
        rw [if_pos hq, List.drop_append_of_le_length hqpos]
        simp
      rw [e1, List.drop_drop, List.length_drop]
      congr 1
      simp only [List.length_append, List.length_cons]
      omega
    · have e1 : enqueueDrop q s ++ rest = q ++ s :: rest := by
        unfold enqueueDrop
        rw [if_neg hq]
        simp
      rw [e1]

/-- C2: enqueueing `QUEUE_MAX + k` tokens (`k ≥ 1`) through `sendAscii`
while disconnected with reconnect intent leaves exactly the most recent
`QUEUE_MAX = 20` tokens in their original relative order (the oldest were
evicted), and no intermediate queue ever exceeds `QUEUE_MAX`. -/
theorem sendQueue_capacity (k : Nat) (hasRx : Bool) (ts : List String)
    (hk : 1 ≤ k) (hlen : ts.length = QUEUE_MAX + k) :
    ts.foldl (fun q s => (sendAscii false hasRx true q s).queue) [] = ts.drop k
    ∧ (ts.foldl (fun q s => (sendAscii false hasRx true q s).queue) []).length
        = QUEUE_MAX
    ∧ ∀ i : Nat,
        ((ts.take i).foldl (fun q s => (sendAscii false hasRx true q s).queue) []).length
          ≤ QUEUE_MAX := by
  have hQ : QUEUE_MAX = 20 := rfl
  have hfun : (fun q s => (sendAscii false hasRx true q s).queue) = enqueueDrop := by
    funext q s
    cases hasRx <;> rfl
  rw [hfun]
  have hmain := foldl_enqueueDrop ts [] (by simp)
  simp only [List.nil_append] at hmain
  have hdk : ts.length - QUEUE_MAX = k := by omega
  refine ⟨by rw [hmain, hdk], by rw [hmain, hdk, List.length_drop]; omega, ?_⟩
  intro i
  have htake := foldl_enqueueDrop (ts.take i) [] (by simp)
  simp only [List.nil_append] at htake
  rw [htake, List.length_drop]
  omega

/-- Witness for C2: 21 enqueues keep exactly the 20 most recent tokens. -/
theorem sendQueue_capacity_witness :
    1 ≤ 1 ∧ capList.length = QUEUE_MAX + 1
    ∧ (capList.foldl (fun q s => (sendAscii false true true q s).queue) []
          = capList.drop 1
       ∧ (capList.foldl (fun q s => (sendAscii false true true q s).queue) []).length
          = QUEUE_MAX
       ∧ ∀ i : Nat,
          ((capList.take i).foldl (fun q s => (sendAscii false true true q s).queue) []).length
            ≤ QUEUE_MAX) :=
  ⟨Nat.le_refl 1, by decide,
   sendQueue_capacity 1 true capList (Nat.le_refl 1) (by decide)⟩

/-- C7: for an id absent from the registry, `connectById` never surfaces an
`UnknownDevice` error — it falls back to a fresh scan-and-connect, and the
only failure it can report there is the fallback scan's own error; for an id
that resolves, it makes that device active and goes through `reconnect()`. -/
theorem connectById_unknown_fallback (known : List (String × String))
    (scanFirst scanFallback recon : Except String Unit) (idArg : String) :
    (findById known (trimStr idArg) = none → scanFirst = .ok () →
      connectById known scanFirst scanFallback recon idArg = .scanned)
    ∧ (findById known (trimStr idArg) = none →
      connectById known scanFirst scanFallback recon idArg = .scanned
      ∨ ∃ m m2, scanFirst = .error m ∧ scanFallback = .error m2
          ∧ connectById known scanFirst scanFallback recon idArg = .failed m2)
    ∧ (∀ name, findById known (trimStr idArg) = some name → recon = .ok () →
      connectById known scanFirst scanFallback recon idArg
        = .reconnected (trimStr idArg)) := by
  refine ⟨?_, ?_, ?_⟩
  · intro h hs
    unfold connectById
    rw [h, hs]
  · intro h
    unfold connectById
    rw [h]
    cases scanFirst with
    | ok u => left; rfl
    | error m =>
      cases scanFallback with
      | ok u => left; rfl
      | error m2 => right; exact ⟨m, m2, rfl, rfl, rfl⟩
  · intro name h hr
    unfold connectById
    rw [h, hr]

/-- Witness for C7: an unfamiliar id triggers a scan, a remembered id (even
with surrounding whitespace) reconnects to it. -/
theorem connectById_unknown_fallback_witness :
    connectById [("d1", "Relay")] (.ok ()) (.ok ()) (.ok ()) "zz" = .scanned
    ∧ connectById [("d1", "Relay")] (.ok ()) (.ok ()) (.ok ()) " d1 "
        = .reconnected (trimStr " d1 ") :=
  ⟨(connectById_unknown_fallback [("d1", "Relay")] (.ok ()) (.ok ()) (.ok ()) "zz").1
      (by decide) rfl,
   (connectById_unknown_fallback [("d1", "Relay")] (.ok ()) (.ok ()) (.ok ()) " d1 ").2.2
      "Relay" (by decide) rfl⟩

theorem getLast?_cons_getD {α : Type} (a d : α) (l : List α) :
    ((a :: l).getLast?).getD d = (l.getLast?).getD a := by
  cases l with
  | nil => rfl
  | cons b t =>
    rw [List.getLast?_cons_cons]
    cases h : (b :: t).getLast? with
    | none => simp at h
    | some x => rfl

theorem connectSendById_ok_token (known : List (String × String))
    (devFail : String → Option String) (id a tok : String)
    (h : connectSendById known devFail id a = .ok tok) : tok = actionToken a := by
  unfold connectSendById at h
  cases hf : findById known id <;> rw [hf] at h
  · exact absurd h (by simp)
  · cases hd : devFail id <;> rw [hd] at h
    · exact (Except.ok.inj h).symm
    · exact absurd h (by simp)

theorem bulk_foldl_spec (known : List (String × String))
    (devFail : String → Option String) (a : String) (ids : List String)
    (st : BulkState) :
    (ids.foldl (bulkStep known devFail a) st).sent
      = st.sent ++ ids.filterMap (bulkSentPair known devFail a)
    ∧ (ids.foldl (bulkStep known devFail a) st).lastError
      = ((ids.filterMap (bulkFailMsg known devFail a)).getLast?).getD st.lastError := by
  induction ids generalizing st with
  | nil => simp
  | cons id rest ih =>
    simp only [List.foldl_cons]
    cases h : connectSendById known devFail id a with
    | ok tok =>
      have hs : bulkStep known devFail a st id
          = { st with sent := st.sent ++ [(id, tok)] } := by
        simp [bulkStep, h]
      have hp : bulkSentPair known devFail a id = some (id, tok) := by
        simp [bulkSentPair, h]
      have hf : bulkFailMsg known devFail a id = none := by
        simp [bulkFailMsg, h]
      rw [hs]
      obtain ⟨ih1, ih2⟩ := ih { st with sent := st.sent ++ [(id, tok)] }
      refine ⟨?_, ?_⟩
      · rw [ih1]
        simp [List.filterMap_cons, hp]
      · rw [ih2]
        simp [List.filterMap_cons, hf]
    | error m =>
      have hs : bulkStep known devFail a st id
          = { st with lastError := "ID " ++ id ++ ": " ++ m } := by
        simp [bulkStep, h]
      have hp : bulkSentPair known devFail a id = none := by
        simp [bulkSentPair, h]
      have hf : bulkFailMsg known devFail a id = some ("ID " ++ id ++ ": " ++ m) := by
        simp [bulkFailMsg, h]
      rw [hs]
      obtain ⟨ih1, ih2⟩ := ih { st with lastError := "ID " ++ id ++ ": " ++ m }
      refine ⟨?_, ?_⟩
      · rw [ih1]
        simp [List.filterMap_cons, hp]
      · rw [ih2]
        simp only [List.filterMap_cons, hf]
        exact (getLast?_cons_getD _ _ _).symm

/-- C8: `bulkCsv` walks the trimmed non-empty ids sequentially in list
order: the tokens actually sent are exactly those of the succeeding ids in
order, a per-id failure is caught and recorded as `ID <id>: <message>`
without stopping the loop, and the final last-error slot holds the message
of the last failing id (or stays cleared).  In particular, on
`bulkCsv "a,b,c" "OFF"` with only `b` unknown, `a` and `c` both receive
`"0"` and the last error names `b`. -/
theorem bulkCsv_sequential_spec (known : List (String × String))
    (devFail : String → Option String) (csv act : String) :
    ((bulkCsv known devFail csv act).sent
        = (if trimStr csv = "" then [] else parseCsvIds csv).filterMap
            (bulkSentPair known devFail (toUpperStr (if act = "" then "ON" else act)))
      ∧ (bulkCsv known devFail csv act).lastError
        = (((if trimStr csv = "" then [] else parseCsvIds csv).filterMap
            (bulkFailMsg known devFail
              (toUpperStr (if act = "" then "ON" else act)))).getLast?).getD "")
    ∧ bulkCsv [("a", "nameA"), ("c", "nameC")] (fun _ => none) "a,b,c" "OFF"
        = { sent := [("a", "0"), ("c", "0")], lastError := "ID b: 未知のID: b" } := by
  refine ⟨?_, by decide⟩
  unfold bulkCsv
  by_cases hc : trimStr csv = ""
  · simp [hc]
  · simp only [hc, if_false]
    have := bulk_foldl_spec known devFail
      (toUpperStr (if act = "" then "ON" else act)) (parseCsvIds csv)
      { sent := [], lastError := "" }
    simpa using this

/-- Counterexample to C10 as stated: the empty action string is not
`"ON"`, `"OFF"` or `"TOGGLE"` (also not after uppercasing), yet `bulkCsv`
dispatches it as ON — the device receives `"1"`, not the READ token `"s"`,
because the source defaults a falsy action to `'ON'` before uppercasing. -/
theorem bulkCsv_action_empty_cex :
    ¬(toUpperStr "" = "ON" ∨ toUpperStr "" = "OFF" ∨ toUpperStr "" = "TOGGLE")
    ∧ bulkCsv [("a", "n")] (fun _ => none) "a" ""
        = { sent := [("a", "1")], lastError := "" } := by decide

/-- C10 (amended): for every nonempty action string whose uppercasing is
none of `"ON"`, `"OFF"`, `"TOGGLE"`, every token `bulkCsv` sends is the
READ token `"s"` (the empty action is instead defaulted to ON). -/
theorem bulkCsv_action_default_read (act : String) (hne : act ≠ "")
    (h1 : toUpperStr act ≠ "ON") (h2 : toUpperStr act ≠ "OFF")
    (h3 : toUpperStr act ≠ "TOGGLE") (known : List (String × String))
    (devFail : String → Option String) (csv : String) (p : String × String)
    (hp : p ∈ (bulkCsv known devFail csv act).sent) : p.2 = "s" := by
  have ha : actionToken (toUpperStr act) = "s" := by
    unfold actionToken
    rw [if_neg h1, if_neg h2, if_neg h3]
  unfold bulkCsv at hp
  rw [if_neg hne] at hp
  by_cases hc : trimStr csv = ""
  · rw [if_pos hc] at hp
    simp at hp
  · rw [if_neg hc] at hp
    rw [(bulk_foldl_spec known devFail (toUpperStr act) (parseCsvIds csv)
      { sent := [], lastError := "" }).1] at hp
    simp only [List.nil_append, List.mem_filterMap] at hp
    obtain ⟨id, _, hid⟩ := hp
    unfold bulkSentPair at hid
    cases h : connectSendById known devFail id (toUpperStr act) <;> rw [h] at hid
    · exact absurd hid (by simp)
    · rw [connectSendById_ok_token known devFail id (toUpperStr act) _ h] at hid
      obtain rfl := Option.some.inj hid
      exact ha

/-- Witness for the amended C10: the junk action `"junk"` sends `"s"`. -/
theorem bulkCsv_action_default_read_witness :
    ("junk" : String) ≠ "" ∧ toUpperStr "junk" ≠ "ON"
    ∧ (("a", "s") ∈ (bulkCsv [("a", "n")] (fun _ => none) "a" "junk").sent)
    ∧ (("a", "s") : String × String).2 = "s" :=
  ⟨by decide, by decide, by decide,
   bulkCsv_action_default_read "junk" (by decide) (by decide) (by decide) (by decide)
     [("a", "n")] (fun _ => none) "a" ("a", "s") (by decide)⟩

end BtRelay
